import Mathlib

/-!
Verification of the podsummary backend (`backend/server.py`).

Python strings are modelled as lists of Unicode characters (`Str := List Char`),
which matches Python's code-point semantics for `len`, slicing, splitting and
membership.  External HTTP services (SearchAPI, the oEmbed endpoint, the OpenAI
API) are modelled as oracle functions supplied as parameters; `none` models the
call raising an exception.  The MongoDB collection `db.transcripts` is modelled
as a list of documents in insertion order (`find_one` returns the first match,
`insert_one` appends, `update_one` updates the first match).
-/

namespace PodSummary

abbrev Str := List Char

/-- Python truthiness of a string: non-empty. -/
def pyTruthy (s : Str) : Bool := !s.isEmpty

/-- Python truthiness of an optional string (`None` and `""` are falsy). -/
def pyTruthyOpt (o : Option Str) : Bool :=
  match o with
  | none => false
  | some s => !s.isEmpty

/-- Characters removed by Python's `str.strip()` (the common ASCII whitespace). -/
def pyIsSpace (c : Char) : Bool :=
  c = ' ' || c = '\t' || c = '\n' || c = '\r' || c = '\x0b' || c = '\x0c'

/-- Python `str.strip()`. -/
def pyStrip (s : Str) : Str :=
  ((s.dropWhile pyIsSpace).reverse.dropWhile pyIsSpace).reverse

/-- Auxiliary scanner for Python `str.split(sep)` with a non-empty separator:
leftmost, non-overlapping occurrences.  The `Nat` argument is recursion fuel;
a non-empty separator consumes at least one character per step, so starting
from the string's length the fuel never runs out. -/
def pySplitAux (sep : Str) : Nat → Str → Str → List Str
  | _, [], acc => [acc.reverse]
  | 0, l, acc => [acc.reverse ++ l]
  | fuel + 1, c :: rest, acc =>
    if sep.isPrefixOf (c :: rest) then
      acc.reverse :: pySplitAux sep fuel (List.drop sep.length (c :: rest)) []
    else
      pySplitAux sep fuel rest (c :: acc)

/-- Python `str.split(sep)` for a non-empty separator. -/
def pySplit (sep s : Str) : List Str :=
  if sep.isEmpty then [s] else pySplitAux sep s.length s []

/-- Python `sep.join(parts)`. -/
def pyJoin (sep : Str) (parts : List Str) : Str :=
  List.intercalate sep parts

/-- Python `needle in hay` for strings (substring containment). -/
def containsSub (needle : Str) : Str → Bool
  | [] => needle.isEmpty
  | c :: rest => needle.isPrefixOf (c :: rest) || containsSub needle rest

/-- Python `str.replace(old, new)` for a non-empty `old`
(equal to `new.join(s.split(old))`). -/
def pyReplace (old new s : Str) : Str :=
  pyJoin new (pySplit old s)

/-- Order-preserving deduplication, as `list(dict.fromkeys(xs))` or the
`if x not in acc: acc.append(x)` loop. -/
def pyDedup (xs : List Str) : List Str :=
  xs.foldl (fun acc x => if acc.contains x then acc else acc ++ [x]) []

/-- Python `range(a, b, step)` for `step > 0`. -/
def pyRange (a b step : Nat) : List Nat :=
  List.range' a ((b - a + step - 1) / step) step

/-! ## `extract_video_id` (server.py lines 76-89)

The four regular expressions all capture eleven characters of the class
`[0-9A-Za-z_-]` after a context:
  1. `(?:v=|\/)([0-9A-Za-z_-]{11}).*`
  2. `(?:embed\/)([0-9A-Za-z_-]{11})`
  3. `(?:watch\?v=)([0-9A-Za-z_-]{11})`
  4. `(?:youtu\.be\/)([0-9A-Za-z_-]{11})`
`re.search` semantics: try each start position left to right; at a position try
the alternatives in order; on failure move one character right. -/

/-- Character class `[0-9A-Za-z_-]`. -/
def isVidChar (c : Char) : Bool :=
  c.isAlphanum || c = '_' || c = '-'

/-- Match exactly eleven `[0-9A-Za-z_-]` characters at the start of `l`. -/
def grab11 (l : Str) : Option Str :=
  let p := l.take 11
  if p.length = 11 ∧ p.all isVidChar then some p else none

/-- One position of pattern 1: try the alternative `v=` first, then `\/`,
each followed by the eleven-character group. -/
def tryPat1At (c : Char) (rest : Str) : Option Str :=
  match (if c = 'v' then
           match rest with
           | '=' :: r2 => grab11 r2
           | _ => none
         else none) with
  | some g => some g
  | none => if c = '/' then grab11 rest else none

/-- `re.search` for pattern 1, `(?:v=|\/)([0-9A-Za-z_-]{11}).*`
(the trailing `.*` always matches and is dropped). -/
def searchPat1 : Str → Option Str
  | [] => none
  | c :: rest =>
    match tryPat1At c rest with
    | some g => some g
    | none => searchPat1 rest

/-- `re.search` for a literal context followed by the eleven-character group. -/
def searchLit (lit : Str) : Str → Option Str
  | [] => none
  | c :: rest =>
    match (if lit.isPrefixOf (c :: rest) then grab11 (List.drop lit.length (c :: rest)) else none) with
    | some g => some g
    | none => searchLit lit rest

/-- First pattern that matches wins (the `for pattern in patterns` loop). -/
def firstSome : List (Str → Option Str) → Str → Option Str
  | [], _ => none
  | p :: ps, u =>
    match p u with
    | some g => some g
    | none => firstSome ps u

/-- `extract_video_id`: returns the captured group of the first matching
pattern; `none` models `raise ValueError`. -/
def extract_video_id (url : Str) : Option Str :=
  firstSome [searchPat1, searchLit "embed/".data,
             searchLit "watch?v=".data, searchLit "youtu.be/".data] url

/-! ## `summarize_song_lyrics` (server.py lines 282-316) -/

def summarize_song_lyrics (text : Str) : Str :=
  let lines := pySplit "\n".data text
  -- Filter out music notes and empty lines
  let lyrics := (lines.filter
      (fun line => pyTruthy (pyStrip line) && !(containsSub "♪".data line))).map pyStrip
  -- Remove duplicates (common in songs with chorus)
  let unique_lyrics := pyDedup lyrics
  -- If we have very few unique lines, return them all
  if unique_lyrics.length < 8 then
    "🎤 ".data ++ pyJoin "\n🎵 ".data unique_lyrics
  else
    let summary : List Str := []
    -- Always include first line if available
    let summary :=
      if !unique_lyrics.isEmpty ∧ unique_lyrics.length > 0 then
        summary ++ ["🎤 ".data ++ unique_lyrics.headD []]
      else summary
    -- Take samples at regular intervals
    let summary :=
      if unique_lyrics.length > 5 then
        let interval := max 1 (unique_lyrics.length / 5)
        summary ++ (pyRange interval unique_lyrics.length interval).map
          (fun i => "🎵 ".data ++ unique_lyrics.getD i [])
      else summary
    -- Always include last line if not already included
    let summary :=
      if !unique_lyrics.isEmpty ∧ !(summary.contains (unique_lyrics.getLastD [])) then
        summary ++ ["🎶 ".data ++ unique_lyrics.getLastD []]
      else summary
    pyJoin "\n".data summary

/-! ## Fallback extractive summarization (server.py lines 220-275)

The body of the inner `try` of `summarize_text`'s `except` branch.  The code is
pure string processing, so its own `except Exception` arm (the apology
message) is unreachable in the model. -/

def topic_emojis : List Str :=
  ["🔸".data, "🔹".data, "💡".data, "📌".data, "🔆".data,
   "✨".data, "📣".data, "🔍".data, "📈".data, "🌟".data]

/-- Decimal rendering of a natural number, as Python `str(n)`. -/
def natStr (n : Nat) : Str := (Nat.repr n).data

def fallback_summary (text : Str) : Str :=
  -- Split text into chunks - use a simple period split
  let chunks := pySplit ". ".data text
  -- For very short text, just return it
  if text.length < 500 ∨ chunks.length < 5 then
    "📝 The transcript is too short to summarize effectively. Here it is in full:\n\n".data ++ text
  else
    let summary := "# 📋 Summary of Video Transcript\n\n## 🔍 Main Topics Discussed\n\n".data
    let topics : List Str := []
    -- Always take the first chunk (often contains title or intro)
    let topics :=
      if pyTruthy (chunks.headD []) then
        topics ++ ["1. ".data ++ topic_emojis.getD 0 [] ++ " Introduction: ".data
                    ++ pyStrip (chunks.headD [])]
      else topics
    let topics :=
      if chunks.length > 10 then
        -- For longer texts, take samples at regular intervals
        let sample_interval := max 1 (chunks.length / 5)
        topics ++ (pyRange 1 5 1).filterMap (fun i =>
          let idx := min (i * sample_interval) (chunks.length - 1)
          if pyTruthy (pyStrip (chunks.getD idx [])) then
            let emoji_idx := min i (topic_emojis.length - 1)
            some (natStr (i + 1) ++ ". ".data ++ topic_emojis.getD emoji_idx [] ++ " ".data
                   ++ pyStrip (chunks.getD idx []))
          else none)
      else
        -- For shorter texts, take every other chunk
        topics ++ (pyRange 1 (min 5 chunks.length) 1).filterMap (fun i =>
          if pyTruthy (pyStrip (chunks.getD i [])) then
            let emoji_idx := min i (topic_emojis.length - 1)
            some (natStr (i + 1) ++ ". ".data ++ topic_emojis.getD emoji_idx [] ++ " ".data
                   ++ pyStrip (chunks.getD i []))
          else none)
    let summary := summary ++ pyJoin "\n".data topics
    let summary := summary ++ "\n\n## 💎 Key Insights\n\n".data
    -- Take last chunk as conclusion or insight if available
    let summary :=
      if pyTruthy (chunks.getLastD []) ∧ !(topics.contains (chunks.getLastD [])) then
        summary ++ "* 🔑 ".data ++ pyStrip (chunks.getLastD []) ++ "\n".data
      else summary
    -- Add a sample from middle of video as another insight
    let mid_idx := chunks.length / 2
    let summary :=
      if pyTruthy (chunks.getD mid_idx []) ∧ !(topics.contains (chunks.getD mid_idx [])) then
        summary ++ "* 💫 ".data ++ pyStrip (chunks.getD mid_idx []) ++ "\n".data
      else summary
    summary ++ "\n\n*⚠️ Note: This is an automatic summary created without AI due to API limits. For best results, try again later.*".data

/-! ## `summarize_text` (server.py lines 190-280)

The OpenAI chat completion call is an oracle `llm : Str → Option Str` applied
to the (possibly truncated) transcript; `none` models the call raising. -/

/-- Truncation applied before the LLM call (`max_chars = 16000`). -/
def truncate16000 (text : Str) : Str :=
  if text.length > 16000 then text.take 16000 else text

def summarize_text (llm : Str → Option Str) (text : Str) : Str :=
  let text := truncate16000 text
  match llm text with
  | some summary => summary
  | none =>
    -- Special handling for song lyrics
    if containsSub "♪".data text then
      "🎵 This appears to be a song with lyrics. Here are the main lyrics: 🎵\n\n".data
        ++ summarize_song_lyrics text
    else
      fallback_summary text

/-! ## `get_video_metadata` (server.py lines 92-137)

Two oracles keyed by the video id (each request URL is a function of the id):
`searchapi` models the SearchAPI request plus `response.json()`, `oembed` the
oEmbed request plus `response.json()`.  `none` models an exception anywhere in
the corresponding `try` block. -/

/-- One entry of `video_results`; each field is the composite `.get(...)`
lookup result (`none` when the key chain is absent). -/
structure SearchVideo where
  title : Option Str
  channelName : Option Str
  thumbStatic : Option Str
deriving DecidableEq

/-- Parsed SearchAPI response body; `video_results = none` models the key
being absent. -/
structure SearchData where
  video_results : Option (List SearchVideo)
deriving DecidableEq

/-- Parsed oEmbed response body. -/
structure OembedData where
  title : Option Str
  author_name : Option Str
deriving DecidableEq

structure MetaWorld where
  searchapi : Str → Option (Nat × SearchData)
  oembed : Str → Option (Nat × OembedData)

/-- `response.status_code == 200 and 'video_results' in response.json() and
response.json()['video_results']` (list truthiness: non-empty). -/
def searchUsable (r : Option (Nat × SearchData)) : Bool :=
  match r with
  | some (status, data) =>
    status == 200 &&
      (match data.video_results with
       | some (_ :: _) => true
       | _ => false)
  | none => false

/-- The oEmbed call succeeded with status 200. -/
def oembedOk (r : Option (Nat × OembedData)) : Bool :=
  match r with
  | some (status, _) => status == 200
  | none => false

def get_video_metadata (w : MetaWorld) (video_id : Str) : Str × Str × Str :=
  -- First try SearchAPI
  match w.searchapi video_id with
  | some (status, data) =>
    if status == 200 && (match data.video_results with | some (_ :: _) => true | _ => false) then
      match data.video_results with
      | some (video :: _) =>
        (video.title.getD [], video.channelName.getD [], video.thumbStatic.getD [])
      | _ =>
        -- unreachable: guarded by the non-empty check above
        get_video_metadata_oembed w video_id
    else get_video_metadata_oembed w video_id
  | none => get_video_metadata_oembed w video_id
where
  /-- Fallback to YouTube's oEmbed API, then the ultimate default triple. -/
  get_video_metadata_oembed (w : MetaWorld) (video_id : Str) : Str × Str × Str :=
    match w.oembed video_id with
    | some (status, data) =>
      if status == 200 then
        (data.title.getD [], data.author_name.getD [],
         "https://img.youtube.com/vi/".data ++ video_id ++ "/maxresdefault.jpg".data)
      else
        ("YouTube Video (".data ++ video_id ++ ")".data, "YouTube Channel".data,
         "https://img.youtube.com/vi/".data ++ video_id ++ "/0.jpg".data)
    | none =>
      ("YouTube Video (".data ++ video_id ++ ")".data, "YouTube Channel".data,
       "https://img.youtube.com/vi/".data ++ video_id ++ "/0.jpg".data)

/-! ## `get_transcript` (server.py lines 140-187)

Oracle: status code, `response.text` (used in the error message) and the
`transcripts` key of the parsed body (`none` = key absent). -/

/-- One transcript segment; fields are `.get` results. `start` is the sort
key (modelled as a natural number). -/
structure Segment where
  start : Option Nat
  text : Option Str
deriving DecidableEq

/-- Stable ascending insertion by key, modelling Python's stable
`sorted(xs, key=...)`. -/
def insSorted (key : Segment → Nat) (x : Segment) : List Segment → List Segment
  | [] => [x]
  | y :: ys => if key y ≤ key x then y :: insSorted key x ys else x :: y :: ys

def pySortedByStart (xs : List Segment) : List Segment :=
  xs.foldl (fun acc x => insSorted (fun s => s.start.getD 0) x acc) []

def get_transcript (tapi : Str → Option (Nat × Str × Option (List Segment)))
    (video_id : Str) : Except (Nat × Str) Str :=
  match tapi video_id with
  | none =>
    -- requests.get or response.json() raising propagates to the caller,
    -- which wraps it as a 500 (server.py lines 385-387)
    .error (500, "transcript request failed".data)
  | some (status, text, transcripts) =>
    if status ≠ 200 then
      .error (status, "Failed to get transcript: ".data ++ text)
    else
      match transcripts with
      | none => .error (400, "No transcript found for this video".data)
      | some [] => .error (400, "No transcript found for this video".data)
      | some segs =>
        let segments := pySortedByStart segs
        let transcript_parts := segments.filterMap (fun s =>
          let t := pyStrip (s.text.getD [])
          if pyTruthy t then some t else none)
        .ok (pyJoin " ".data transcript_parts)

/-! ## The `db.transcripts` collection and `summarize_youtube_video`
(server.py lines 319-449)

A stored document.  `oid` models the Mongo `_id`; `transcript`, `summary`,
`title`, `channel`, `thumbnail_url` are `Option` so that pre-existing
documents may lack them (a key holding Python `None` is identified with an
absent key: every read in scope goes through `.get` or a truthiness test,
which cannot distinguish the two). -/
structure StoredTranscript where
  oid : Nat
  id : Option Str
  video_id : Str
  url : Str
  transcript : Option Str
  summary : Option Str
  title : Option Str
  channel : Option Str
  thumbnail_url : Option Str
  timestamp : Nat
deriving DecidableEq

abbrev Store := List StoredTranscript

/-- `find_one(filter)`: first document matching. -/
def find_one (p : StoredTranscript → Bool) (store : Store) : Option StoredTranscript :=
  store.find? p

/-- `update_one(filter, {"$set": ...})`: update the first matching document. -/
def update_one (p : StoredTranscript → Bool) (f : StoredTranscript → StoredTranscript) :
    Store → Store
  | [] => []
  | r :: rs => if p r then f r :: rs else r :: update_one p f rs

/-- `insert_one`: append. -/
def insert_one (r : StoredTranscript) (store : Store) : Store := store ++ [r]

structure TranscriptResponse where
  transcript : Str
  summary : Str
  video_id : Str
  url : Str
  title : Option Str
  channel : Option Str
  thumbnail_url : Option Str
  is_cached : Bool
deriving DecidableEq

/-- The external world of one `/api/summarize` request: the metadata oracles,
the transcript API, the OpenAI call, the clock and fresh identifiers. -/
structure World where
  meta : MetaWorld
  tapi : Str → Option (Nat × Str × Option (List Segment))
  llm : Str → Option Str
  now : Nat
  newUuid : Str
  newOid : Nat

def summarize_youtube_video (w : World) (store : Store) (youtube_url : Str) :
    Except (Nat × Str) TranscriptResponse × Store :=
  match extract_video_id youtube_url with
  | none => (.error (400, "Could not extract video ID from URL".data), store)
  | some video_id =>
    let existing := find_one (fun r => r.video_id == video_id) store
    -- If we have a complete cached result, return it immediately
    match existing with
    | some e =>
      if e.transcript.isSome ∧ e.summary.isSome then
        let title := e.title
        let channel := e.channel
        let thumbnail_url := e.thumbnail_url
        -- If we have transcript and summary but no metadata, try to fetch it
        if ¬ pyTruthyOpt title ∨ ¬ pyTruthyOpt channel ∨ ¬ pyTruthyOpt thumbnail_url then
          let (t, c, th) := get_video_metadata w.meta video_id
          let store' :=
            if pyTruthy t ∧ pyTruthy c then
              update_one (fun r => r.oid == e.oid)
                (fun r => { r with title := some t, channel := some c,
                                   thumbnail_url := some th }) store
            else store
          (.ok { transcript := e.transcript.getD [], summary := e.summary.getD [],
                 video_id := e.video_id, url := e.url,
                 title := some t, channel := some c, thumbnail_url := some th,
                 is_cached := true }, store')
        else
          (.ok { transcript := e.transcript.getD [], summary := e.summary.getD [],
                 video_id := e.video_id, url := e.url,
                 title := title, channel := channel, thumbnail_url := thumbnail_url,
                 is_cached := true }, store)
      else
        summarize_body w store youtube_url video_id existing
    | none => summarize_body w store youtube_url video_id none
where
  /-- The non-(fully-cached) path: lines 374-442. -/
  summarize_body (w : World) (store : Store) (youtube_url video_id : Str)
      (existing : Option StoredTranscript) :
      Except (Nat × Str) TranscriptResponse × Store :=
    let cachedTranscript : Option Str :=
      match existing with
      | some e =>
        match e.transcript with
        | some t => if pyTruthy t then some t else none
        | none => none
      | none => none
    let step : Except (Nat × Str) (Str × Bool) :=
      match cachedTranscript with
      | some t => .ok (t, true)
      | none =>
        match get_transcript w.tapi video_id with
        | .ok t => .ok (t, false)
        | .error (_, msg) => .error (500, msg)
    match step with
    | .error err => (.error err, store)
    | .ok (transcript, is_cached) =>
      -- title/channel/thumbnail_url are still None here, so metadata is fetched
      let (t, c, th) := get_video_metadata w.meta video_id
      let title := some t
      let channel := some c
      let thumbnail_url := some th
      let summary := summarize_text w.llm transcript
      let store' :=
        match existing with
        | some e =>
          -- Update the existing record with new data
          update_one (fun r => r.oid == e.oid)
            (fun r =>
              let r := { r with summary := some summary, timestamp := w.now }
              let r := if pyTruthyOpt title then { r with title := title } else r
              let r := if pyTruthyOpt channel then { r with channel := channel } else r
              let r := if pyTruthyOpt thumbnail_url then { r with thumbnail_url := thumbnail_url } else r
              r) store
        | none =>
          -- Create a new record
          insert_one
            { oid := w.newOid, id := some w.newUuid, video_id := video_id,
              url := youtube_url, transcript := some transcript,
              summary := some summary, title := title, channel := channel,
              thumbnail_url := thumbnail_url, timestamp := w.now } store
      (.ok { transcript := transcript, summary := summary, video_id := video_id,
             url := youtube_url, title := title, channel := channel,
             thumbnail_url := thumbnail_url, is_cached := is_cached }, store')

/-! ## `get_channel_videos` (server.py lines 522-729)

Oracles: `httpText` models `requests.get(url).{status_code, text}` for the
channel page; `httpJson` models an oEmbed request plus `response.json()`,
keyed by the requested URL.  `none` models the call raising. -/

/-- One video dict of the response (`channel.name` and `thumbnail.static`
flattened). -/
structure Video where
  id : Str
  title : Str
  link : Str
  channelName : Str
  thumbStatic : Str
deriving DecidableEq

structure ChanWorld where
  httpText : Str → Option (Nat × Str)
  httpJson : Str → Option (Nat × OembedData)

def oembedUrl (video_id : Str) : Str :=
  "https://www.youtube.com/oembed?url=https://www.youtube.com/watch?v=".data
    ++ video_id ++ "&format=json".data

/-- `re.search(r'<meta property="og:title" content="([^"]+)"', html)`: at
each position, the literal followed by a non-empty greedy run of non-quote
characters terminated by a quote. -/
def searchOgTitle : Str → Option Str
  | [] => none
  | c :: rest =>
    let lit := "<meta property=\"og:title\" content=\"".data
    let here : Option Str :=
      if lit.isPrefixOf (c :: rest) then
        let after := List.drop lit.length (c :: rest)
        let run := after.takeWhile (fun ch => ch ≠ '"')
        if run ≠ [] ∧ run.length < after.length then some run else none
      else none
    match here with
    | some m => some m
    | none => searchOgTitle rest

/-- Try `href="/watch?v=([a-zA-Z0-9_-]{11})"` at the start of `l`. -/
def matchWatchAt (l : Str) : Option Str :=
  let lit := "href=\"/watch?v=".data
  if lit.isPrefixOf l then
    let after := List.drop lit.length l
    let g := after.take 11
    if g.length = 11 ∧ g.all isVidChar then
      match after.drop 11 with
      | '"' :: _ => some g
      | _ => none
    else none
  else none

/-- `re.findall(r'href="/watch\?v=([a-zA-Z0-9_-]{11})"', html)`: scan left to
right, resuming after the end of each (non-overlapping) match.  The `Nat`
argument is recursion fuel; every step consumes at least one character, so
starting from the string's length the fuel never runs out. -/
def findAllWatchAux : Nat → Str → List Str
  | _, [] => []
  | 0, _ => []
  | fuel + 1, c :: rest =>
    match matchWatchAt (c :: rest) with
    | some g => g :: findAllWatchAux fuel (List.drop ("href=\"/watch?v=".data.length + 12) (c :: rest))
    | none => findAllWatchAux fuel rest

def findAllWatch (html : Str) : List Str :=
  findAllWatchAux html.length html

/-- `Make sure URL ends with /videos`. -/
def videosSuffix (url : Str) : Str :=
  if "/videos".data.isSuffixOf url then url
  else if "/".data.isSuffixOf url then url ++ "videos".data
  else url ++ "/videos".data

def scrape_youtube_channel_videos (w : ChanWorld) (channel_url : Str) :
    Option Str × List Video :=
  let channel_url := videosSuffix channel_url
  match w.httpText channel_url with
  | none => (none, [])   -- except: return None, []
  | some (status, html) =>
    if status ≠ 200 then (none, [])
    else
      let channel_name := "YouTube Channel".data
      let channel_name :=
        match searchOgTitle html with
        | some m => pyReplace " - YouTube".data [] m
        | none => channel_name
      -- Get unique IDs, use the first 6
      let video_ids := pyDedup (findAllWatch html)
      let videos := (video_ids.take 6).filterMap (fun video_id =>
        match w.httpJson (oembedUrl video_id) with
        | some (st, d) =>
          if st == 200 then
            some { id := video_id,
                   title := d.title.getD ("Video ".data ++ video_id),
                   link := "https://www.youtube.com/watch?v=".data ++ video_id,
                   channelName := d.author_name.getD channel_name,
                   thumbStatic := "https://img.youtube.com/vi/".data ++ video_id
                     ++ "/maxresdefault.jpg".data }
          else none
        | none => none)
      (some channel_name, videos)

/-- The six hard-coded fallback videos (server.py lines 662-705). -/
def sample_videos : List Video :=
  [{ id := "bCkPXBXGsIQ".data,
     title := "Why are Hydrogen Fuel Cells So Expensive? - Just Have a Think".data,
     link := "https://www.youtube.com/watch?v=bCkPXBXGsIQ".data,
     channelName := "Just Have A Think".data,
     thumbStatic := "https://img.youtube.com/vi/bCkPXBXGsIQ/maxresdefault.jpg".data },
   { id := "Nj-hdQMa3uA".data,
     title := "Dr. Andrew Huberman: \"Most People Only Need 6 Hours of Sleep\" | Lex Fridman Podcast".data,
     link := "https://www.youtube.com/watch?v=Nj-hdQMa3uA".data,
     channelName := "Lex Fridman".data,
     thumbStatic := "https://img.youtube.com/vi/Nj-hdQMa3uA/maxresdefault.jpg".data },
   { id := "gLJowTOkZVo".data,
     title := "How to Fall Asleep & Sleep Better | Huberman Lab Podcast #2".data,
     link := "https://www.youtube.com/watch?v=gLJowTOkZVo".data,
     channelName := "Andrew Huberman".data,
     thumbStatic := "https://img.youtube.com/vi/gLJowTOkZVo/maxresdefault.jpg".data },
   { id := "9tjGg8WnxlQ".data,
     title := "Atmospheric CO2 Removal - Just Have a Think".data,
     link := "https://www.youtube.com/watch?v=9tjGg8WnxlQ".data,
     channelName := "Just Have A Think".data,
     thumbStatic := "https://img.youtube.com/vi/9tjGg8WnxlQ/maxresdefault.jpg".data },
   { id := "vPOl5VqpBuw".data,
     title := "The Power Company that's Ditching Fossil Fuels - Just Have a Think".data,
     link := "https://www.youtube.com/watch?v=vPOl5VqpBuw".data,
     channelName := "Just Have A Think".data,
     thumbStatic := "https://img.youtube.com/vi/vPOl5VqpBuw/maxresdefault.jpg".data },
   { id := "cxRm6u3mfbI".data,
     title := "What Will Happen When We Run Out of Food? - Just Have a Think".data,
     link := "https://www.youtube.com/watch?v=cxRm6u3mfbI".data,
     channelName := "Just Have A Think".data,
     thumbStatic := "https://img.youtube.com/vi/cxRm6u3mfbI/maxresdefault.jpg".data }]

/-- `x.split('/')[0].split('?')[0]`. -/
def firstSeg (s : Str) : Str :=
  (pySplit "?".data ((pySplit "/".data s).headD [])).headD []

/-- Channel id/handle extraction (server.py lines 530-563); returns
`(channel_id, channel_handle)`. -/
def parseChannelUrl (w : ChanWorld) (curl : Str) : Option Str × Option Str :=
  if containsSub "/channel/".data curl then
    (some (firstSeg ((pySplit "/channel/".data curl).getLastD [])), none)
  else if containsSub "@".data curl then
    (none, some (firstSeg ((pySplit "@".data curl).getLastD [])))
  else if containsSub "/c/".data curl then
    (none, some (firstSeg ((pySplit "/c/".data curl).getLastD [])))
  else if containsSub "/user/".data curl then
    (none, some (firstSeg ((pySplit "/user/".data curl).getLastD [])))
  else if containsSub "youtube.com/".data curl then
    (none,
      -- try: extract video id and ask oEmbed for the author; except: pass
      match extract_video_id curl with
      | none => none
      | some vid =>
        match w.httpJson (oembedUrl vid) with
        | some (st, d) =>
          if st == 200 then some (pyReplace " ".data [] (d.author_name.getD []))
          else none
        | none => none)
  else (none, none)

/-- The static-sample fallback block (server.py lines 657-721): when fewer
than six videos were scraped, pad from `sample_videos` and, when no channel
name was found, synthesize one from the handle, the id or a default. -/
def padWithSamples (channel_handle channel_id : Option Str)
    (channel_name : Option Str) (videos : List Video) : Option Str × List Video :=
  if videos.isEmpty || videos.length < 6 then
    let needed_videos := 6 - videos.length
    let videos := videos ++ sample_videos.take (min needed_videos sample_videos.length)
    -- If no channel name was found, show the URL domain
    let channel_name :=
      if ¬ pyTruthyOpt channel_name then
        some (if pyTruthyOpt channel_handle then "@".data ++ channel_handle.getD []
              else if pyTruthyOpt channel_id then "Channel ID: ".data ++ channel_id.getD []
              else "YouTube Channel".data)
      else channel_name
    (channel_name, videos)
  else (channel_name, videos)

def get_channel_videos (w : ChanWorld) (channel_url : Option Str) :
    Except (Nat × Str) (Option Str × List Video) :=
  if ¬ pyTruthyOpt channel_url then .error (400, "Channel URL is required".data)
  else
    let curl := channel_url.getD []
    let (channel_id, channel_handle) := parseChannelUrl w curl
    -- Try to determine the correct URL format for scraping
    let scrape_url := curl
    let scrape_url :=
      if pyTruthyOpt channel_handle then
        "https://www.youtube.com/@".data ++ channel_handle.getD []
      else if pyTruthyOpt channel_id then
        "https://www.youtube.com/channel/".data ++ channel_id.getD []
      else scrape_url
    let (channel_name, videos) := scrape_youtube_channel_videos w scrape_url
    -- If we failed to get videos, try different URL formats
    let (channel_name, videos) :=
      if videos.isEmpty then
        let (channel_name, videos) :=
          if pyTruthyOpt channel_handle then
            scrape_youtube_channel_videos w
              ("https://www.youtube.com/c/".data ++ channel_handle.getD [])
          else (channel_name, videos)
        if videos.isEmpty ∧ pyTruthyOpt channel_id then
          scrape_youtube_channel_videos w
            ("https://www.youtube.com/channel/".data ++ channel_id.getD [] ++ "/videos".data)
        else (channel_name, videos)
      else (channel_name, videos)
    -- If we still have fewer than 6 videos, pad from the static sample data
    let (channel_name, videos) := padWithSamples channel_handle channel_id channel_name videos
    -- Ensure exactly 6 videos are returned
    .ok (channel_name, videos.take 6)

/-! ## Properties used in the claims -/

/-- The fields an update never touches: Mongo id, uuid, video id, source URL
and the stored transcript. -/
def frameEq (r r' : StoredTranscript) : Prop :=
  r'.oid = r.oid ∧ r'.id = r.id ∧ r'.video_id = r.video_id ∧
  r'.url = r.url ∧ r'.transcript = r.transcript

instance : DecidablePred fun p : StoredTranscript × StoredTranscript => frameEq p.1 p.2 :=
  fun _ => by unfold frameEq; infer_instance

/-- The store invariant: no two documents share a `video_id`. -/
def uniqueVideoIds (store : Store) : Prop :=
  (store.map (fun r => r.video_id)).Nodup

/-- Run a sequence of summarize requests against the store. -/
def runRequests (reqs : List (World × Str)) (store : Store) : Store :=
  reqs.foldl (fun st req => (summarize_youtube_video req.1 st req.2).2) store

/-! # Theorems -/

/-! ## C9: `extract_video_id` -/

theorem grab11_eq_some {l s : Str} (h : grab11 l = some s) :
    s.length = 11 ∧ s.all isVidChar = true := by
  simp only [grab11] at h
  split at h
  · cases h
    exact ⟨‹(l.take 11).length = 11 ∧ (l.take 11).all isVidChar = true›.1,
           ‹(l.take 11).length = 11 ∧ (l.take 11).all isVidChar = true›.2⟩
  · cases h

theorem tryPat1At_eq_some {c : Char} {rest s : Str} (h : tryPat1At c rest = some s) :
    s.length = 11 ∧ s.all isVidChar = true := by
  simp only [tryPat1At] at h
  split at h
  · cases h
    rename_i heq
    split at heq
    · split at heq
      · exact grab11_eq_some heq
      · cases heq
    · cases heq
  · split at h
    · exact grab11_eq_some h
    · cases h

theorem searchPat1_eq_some {url s : Str} (h : searchPat1 url = some s) :
    s.length = 11 ∧ s.all isVidChar = true := by
  induction url with
  | nil => simp [searchPat1] at h
  | cons c rest ih =>
    rw [searchPat1] at h
    rcases h1 : tryPat1At c rest with _ | g <;> simp only [h1] at h
    · exact ih h
    · cases h
      exact tryPat1At_eq_some h1

theorem searchLit_eq_some {lit url s : Str} (h : searchLit lit url = some s) :
    s.length = 11 ∧ s.all isVidChar = true := by
  induction url with
  | nil => simp [searchLit] at h
  | cons c rest ih =>
    rw [searchLit] at h
    rcases h1 : (if lit.isPrefixOf (c :: rest) then
                   grab11 (List.drop lit.length (c :: rest)) else none) with _ | g <;>
      simp only [h1] at h
    · exact ih h
    · cases h
      split at h1
      · exact grab11_eq_some h1
      · cases h1

/-- C9: for every URL string, `extract_video_id` either returns the group of
the first of its four patterns that matches — a string of exactly eleven
characters from `[0-9A-Za-z_-]` — or fails (`ValueError`), and it fails iff
none of the four patterns matches. -/
theorem extract_video_id_spec (url : Str) :
    (∀ s, extract_video_id url = some s → s.length = 11 ∧ s.all isVidChar = true) ∧
    (extract_video_id url = none ↔
      (searchPat1 url = none ∧ searchLit "embed/".data url = none ∧
       searchLit "watch?v=".data url = none ∧ searchLit "youtu.be/".data url = none)) ∧
    (∀ s, searchPat1 url = some s → extract_video_id url = some s) ∧
    (searchPat1 url = none →
      ∀ s, searchLit "embed/".data url = some s → extract_video_id url = some s) ∧
    (searchPat1 url = none → searchLit "embed/".data url = none →
      ∀ s, searchLit "watch?v=".data url = some s → extract_video_id url = some s) ∧
    (searchPat1 url = none → searchLit "embed/".data url = none →
      searchLit "watch?v=".data url = none →
      ∀ s, searchLit "youtu.be/".data url = some s → extract_video_id url = some s) := by
  refine ⟨?_, ?_, ?_, ?_, ?_, ?_⟩
  · intro s hs
    simp only [extract_video_id, firstSome] at hs
    rcases h1 : searchPat1 url with _ | g1 <;> simp only [h1] at hs
    · rcases h2 : searchLit "embed/".data url with _ | g2 <;> simp only [h2] at hs
      · rcases h3 : searchLit "watch?v=".data url with _ | g3 <;> simp only [h3] at hs
        · rcases h4 : searchLit "youtu.be/".data url with _ | g4 <;> simp only [h4] at hs
          · cases hs
          · cases hs; exact searchLit_eq_some h4
        · cases hs; exact searchLit_eq_some h3
      · cases hs; exact searchLit_eq_some h2
    · cases hs; exact searchPat1_eq_some h1
  all_goals
    rcases h1 : searchPat1 url with _ | g1 <;>
      rcases h2 : searchLit "embed/".data url with _ | g2 <;>
        rcases h3 : searchLit "watch?v=".data url with _ | g3 <;>
          rcases h4 : searchLit "youtu.be/".data url with _ | g4 <;>
            simp [extract_video_id, firstSome, h1, h2, h3, h4]

/-- Witness for C9 at a concrete URL. -/
theorem extract_video_id_spec_witness :
    ("dQw4w9WgXcQ".data).length = 11 ∧ ("dQw4w9WgXcQ".data).all isVidChar = true :=
  (extract_video_id_spec ("https://youtu.be/dQw4w9WgXcQ".data)).1
    ("dQw4w9WgXcQ".data) (by decide)

/-! ## C4: the fallback summarizer runs only when the LLM call fails -/

/-- C4: when the LLM call returns a result on the (possibly truncated) text,
`summarize_text` returns exactly that result; the song-lyrics path and the
extractive fallback are taken only when the call raises. -/
theorem summarize_text_llm_first (llm : Str → Option Str) (text : Str) :
    (∀ s, llm (truncate16000 text) = some s → summarize_text llm text = s) ∧
    (llm (truncate16000 text) = none →
      summarize_text llm text =
        if containsSub "♪".data (truncate16000 text) then
          "🎵 This appears to be a song with lyrics. Here are the main lyrics: 🎵\n\n".data
            ++ summarize_song_lyrics (truncate16000 text)
        else fallback_summary (truncate16000 text)) := by
  constructor
  · intro s hs
    simp only [summarize_text, hs]
  · intro hn
    simp only [summarize_text, hn]

/-- Witness for C4: a succeeding LLM call is returned verbatim. -/
theorem summarize_text_llm_first_witness :
    summarize_text (fun _ => some "LLM summary".data) "some transcript".data
      = "LLM summary".data :=
  (summarize_text_llm_first (fun _ => some "LLM summary".data)
    ("some transcript".data)).1 ("LLM summary".data) rfl

/-! ## C8: the non-LLM path of `summarize_text` is deterministic -/

/-- C8: whenever the LLM call fails, the result of `summarize_text` is a
function of the input text alone — two runs whose LLM calls fail (for any
reason, modelled by any two failing oracles) produce the same string. -/
theorem summarize_text_fallback_deterministic (llm₁ llm₂ : Str → Option Str)
    (text : Str) (h₁ : llm₁ (truncate16000 text) = none)
    (h₂ : llm₂ (truncate16000 text) = none) :
    summarize_text llm₁ text = summarize_text llm₂ text := by
  simp only [summarize_text, h₁, h₂]

/-- Witness for C8 with two different failing oracles. -/
theorem summarize_text_fallback_deterministic_witness :
    summarize_text (fun _ => none) "la la la".data
      = summarize_text (fun t => if t.length > 20 then some "x".data else none)
          "la la la".data :=
  summarize_text_fallback_deterministic (fun _ => none)
    (fun t => if t.length > 20 then some "x".data else none)
    ("la la la".data) rfl (by decide)

/-! ## C5: duplicate lines in the output of `summarize_song_lyrics`

The code deduplicates the lyric lines into `unique_lyrics`, but the guard
`if unique_lyrics[-1] not in summary` compares the bare last line against the
emoji-prefixed entries of `summary`, so it cannot detect that the last line
was already emitted by the interval sampling.  With eight distinct lines the
interval is `max 1 (8 / 5) = 1`, the sampling emits indices 1..7 — including
the last line — and the last line is then emitted a second time. -/

/-- C5 (code bug): on eight distinct lyric lines the last line `h` appears
twice in the output, once as an interval sample and once as the final line,
contradicting the code's own comment
`Always include last line if not already included`. -/
theorem summarize_song_lyrics_repeats_last_line :
    summarize_song_lyrics "a\nb\nc\nd\ne\nf\ng\nh".data =
      "🎤 a\n🎵 b\n🎵 c\n🎵 d\n🎵 e\n🎵 f\n🎵 g\n🎵 h\n🎶 h".data := by
  decide

/-! ## C7: `get_video_metadata` is total with layered fallbacks -/

/-- C7: the metadata fetcher always returns a triple (its Lean type is not
`Option` — no exception escapes): the SearchAPI result when usable; otherwise
the oEmbed result (with the high-quality thumbnail) when that call returns
status 200; otherwise the default triple built from the video id. -/
theorem get_video_metadata_fallbacks (w : MetaWorld) (video_id : Str) :
    (∀ status data video vs, w.searchapi video_id = some (status, data) →
      status = 200 → data.video_results = some (video :: vs) →
      get_video_metadata w video_id =
        (video.title.getD [], video.channelName.getD [], video.thumbStatic.getD [])) ∧
    (searchUsable (w.searchapi video_id) = false →
      (∀ status data, w.oembed video_id = some (status, data) → status = 200 →
        get_video_metadata w video_id =
          (data.title.getD [], data.author_name.getD [],
           "https://img.youtube.com/vi/".data ++ video_id ++ "/maxresdefault.jpg".data)) ∧
      (oembedOk (w.oembed video_id) = false →
        get_video_metadata w video_id =
          ("YouTube Video (".data ++ video_id ++ ")".data, "YouTube Channel".data,
           "https://img.youtube.com/vi/".data ++ video_id ++ "/0.jpg".data))) := by
  constructor
  · intro status data video vs hs h200 hvr
    subst h200
    simp [get_video_metadata, hs, hvr]
  · intro hns
    have oembedCase :
        (∀ status data, w.oembed video_id = some (status, data) → status = 200 →
          get_video_metadata.get_video_metadata_oembed w video_id =
            (data.title.getD [], data.author_name.getD [],
             "https://img.youtube.com/vi/".data ++ video_id ++ "/maxresdefault.jpg".data)) ∧
        (oembedOk (w.oembed video_id) = false →
          get_video_metadata.get_video_metadata_oembed w video_id =
            ("YouTube Video (".data ++ video_id ++ ")".data, "YouTube Channel".data,
             "https://img.youtube.com/vi/".data ++ video_id ++ "/0.jpg".data)) := by
      constructor
      · intro status data ho h200
        subst h200
        simp [get_video_metadata.get_video_metadata_oembed, ho]
      · intro hno
        rcases ho : w.oembed video_id with _ | ⟨st2, d2⟩
        · simp [get_video_metadata.get_video_metadata_oembed, ho]
        · rw [ho] at hno
          simp only [oembedOk] at hno
          simp [get_video_metadata.get_video_metadata_oembed, ho, hno]
    rcases hsa : w.searchapi video_id with _ | ⟨st, d⟩
    · simpa [get_video_metadata, hsa] using oembedCase
    · rw [hsa] at hns
      simp only [searchUsable] at hns
      simpa [get_video_metadata, hsa, hns] using oembedCase

/-- Witness for C7: with both external calls failing, the default triple is
returned. -/
theorem get_video_metadata_fallbacks_witness :
    get_video_metadata { searchapi := fun _ => none, oembed := fun _ => none } "abc".data =
      ("YouTube Video (".data ++ "abc".data ++ ")".data, "YouTube Channel".data,
       "https://img.youtube.com/vi/".data ++ "abc".data ++ "/0.jpg".data) :=
  ((get_video_metadata_fallbacks
      { searchapi := fun _ => none, oembed := fun _ => none } "abc".data).2 rfl).2 rfl

/-! ## Helper lemmas about the store operations -/

theorem forall₂_frameEq_refl (l : Store) : List.Forall₂ frameEq l l := by
  induction l with
  | nil => exact List.Forall₂.nil
  | cons r rs ih => exact List.Forall₂.cons ⟨rfl, rfl, rfl, rfl, rfl⟩ ih

theorem update_one_forall₂ (p : StoredTranscript → Bool)
    (f : StoredTranscript → StoredTranscript) (l : Store)
    (hf : ∀ r, frameEq r (f r)) : List.Forall₂ frameEq l (update_one p f l) := by
  induction l with
  | nil => exact List.Forall₂.nil
  | cons r rs ih =>
    simp only [update_one]
    split
    · exact List.Forall₂.cons (hf r) (forall₂_frameEq_refl rs)
    · exact List.Forall₂.cons ⟨rfl, rfl, rfl, rfl, rfl⟩ ih

theorem forall₂_frameEq_map_video_id {l l' : Store}
    (h : List.Forall₂ frameEq l l') :
    l'.map (fun r => r.video_id) = l.map (fun r => r.video_id) := by
  induction h with
  | nil => rfl
  | cons hr _ ih => simp [ih, hr.2.2.1]

/-- In the found-record paths, the whole summarize operation relates the old
and new stores pointwise by `frameEq`: only `summary`, `timestamp`, `title`,
`channel` and `thumbnail_url` can change, on the matched document. -/
theorem summarize_found_forall₂ (w : World) (store : Store) (url vid : Str)
    (e : StoredTranscript)
    (hvid : extract_video_id url = some vid)
    (hfind : find_one (fun r => r.video_id == vid) store = some e) :
    List.Forall₂ frameEq store (summarize_youtube_video w store url).2 := by
  simp only [summarize_youtube_video, hvid, hfind]
  split
  · -- fully cached record
    split
    · -- missing metadata: possibly update the document's metadata fields
      rcases hm : get_video_metadata w.meta vid with ⟨a, b, c⟩
      simp only [hm]
      split
      · exact update_one_forall₂ _ _ _ (fun r => by exact ⟨rfl, rfl, rfl, rfl, rfl⟩)
      · exact forall₂_frameEq_refl _
    · exact forall₂_frameEq_refl _
  · -- not fully cached: `summarize_body` with `existing = some e`
    simp only [summarize_youtube_video.summarize_body]
    split
    · exact forall₂_frameEq_refl _
    · rcases hm : get_video_metadata w.meta vid with ⟨a, b, c⟩
      simp only [hm]
      refine update_one_forall₂ _ _ _ (fun r => ?_)
      refine ⟨?_, ?_, ?_, ?_, ?_⟩ <;>
        (split <;> split <;> split <;> rfl)

/-! ## C2: updates of an existing record leave the frame fields alone -/

/-- C2: when the lookup by the extracted video id finds an existing document,
the summarize operation leaves every document's `oid`, `id`, `video_id`,
`url` and — in particular — `transcript` unchanged (pointwise over the
store); only `summary`, `timestamp` and the metadata fields can be written. -/
theorem summarize_update_writes_only_summary_and_metadata
    (w : World) (store : Store) (url vid : Str) (e : StoredTranscript)
    (hvid : extract_video_id url = some vid)
    (hfind : find_one (fun r => r.video_id == vid) store = some e) :
    List.Forall₂ frameEq store (summarize_youtube_video w store url).2 :=
  summarize_found_forall₂ w store url vid e hvid hfind

/-- Concrete world for witnesses: the transcript API answers, the LLM
answers, metadata calls fail. -/
def testWorld : World :=
  { meta := { searchapi := fun _ => none, oembed := fun _ => none },
    tapi := fun _ => some (200, [], some [{ start := some 0, text := some "hello world".data }]),
    llm := fun _ => some "an LLM summary".data,
    now := 17, newUuid := "uuid-1".data, newOid := 42 }

/-- Concrete stored document for witnesses (video id `aaaaaaaaaaa`). -/
def testRecord : StoredTranscript :=
  { oid := 1, id := some "uuid-0".data, video_id := "aaaaaaaaaaa".data,
    url := "https://youtu.be/aaaaaaaaaaa".data, transcript := some "old transcript".data,
    summary := some "old summary".data, title := some "a title".data,
    channel := some "a channel".data, thumbnail_url := some "a thumb".data,
    timestamp := 3 }

/-- Witness for C2 at a concrete store and request. -/
theorem summarize_update_writes_only_summary_and_metadata_witness :
    List.Forall₂ frameEq [testRecord]
      (summarize_youtube_video testWorld [testRecord] "v=aaaaaaaaaaa".data).2 :=
  summarize_update_writes_only_summary_and_metadata testWorld [testRecord]
    ("v=aaaaaaaaaaa".data) ("aaaaaaaaaaa".data) testRecord (by decide) (by decide)

/-! ## C3: `video_id` uniquely keys a document, preserved by every sequence -/

theorem update_one_map_video_id (p : StoredTranscript → Bool)
    (f : StoredTranscript → StoredTranscript) (l : Store)
    (hf : ∀ r, (f r).video_id = r.video_id) :
    (update_one p f l).map (fun r => r.video_id) = l.map (fun r => r.video_id) := by
  induction l with
  | nil => rfl
  | cons r rs ih =>
    simp only [update_one]
    split <;> simp [ih, hf r]

/-- One summarize operation preserves the uniqueness invariant. -/
theorem summarize_preserves_uniqueVideoIds (w : World) (store : Store) (url : Str)
    (h : uniqueVideoIds store) :
    uniqueVideoIds (summarize_youtube_video w store url).2 := by
  rcases hvid : extract_video_id url with _ | vid
  · simpa [summarize_youtube_video, hvid] using h
  · rcases hfind : find_one (fun r => r.video_id == vid) store with _ | e
    · -- no existing document: the operation may insert one with video_id = vid
      have hnotin : ∀ r ∈ store, ¬ (r.video_id == vid) = true := by
        intro r hr
        have := List.find?_eq_none.mp hfind r hr
        simpa using this
      simp only [summarize_youtube_video, hvid, hfind,
                 summarize_youtube_video.summarize_body]
      split
      · exact h
      · rcases hm : get_video_metadata w.meta vid with ⟨a, b, c⟩
        simp only [hm, insert_one]
        unfold uniqueVideoIds at h ⊢
        simp only [List.map_append, List.map_cons, List.map_nil]
        rw [List.nodup_append]
        refine ⟨h, List.nodup_singleton _, ?_⟩
        intro x hx hx'
        simp only [List.mem_map] at hx
        obtain ⟨r, hr, hrx⟩ := hx
        simp only [List.mem_singleton] at hx'
        subst hx'
        exact hnotin r hr (by simp [hrx])
    · -- existing document: the store's video ids are unchanged
      have h2 := summarize_found_forall₂ w store url vid e hvid hfind
      unfold uniqueVideoIds at h ⊢
      rw [forall₂_frameEq_map_video_id h2]
      exact h

/-- C3: starting from a store in which no two documents share a `video_id`,
any sequence of summarize operations (insert only when the lookup finds
nothing, update in place otherwise) preserves that invariant. -/
theorem summarize_sequence_preserves_uniqueVideoIds
    (reqs : List (World × Str)) (store : Store) (h : uniqueVideoIds store) :
    uniqueVideoIds (runRequests reqs store) := by
  induction reqs generalizing store with
  | nil => exact h
  | cons rq rest ih =>
    exact ih _ (summarize_preserves_uniqueVideoIds rq.1 store rq.2 h)

/-- Witness for C3: one inserting request then one updating request on an
initially empty store. -/
theorem summarize_sequence_preserves_uniqueVideoIds_witness :
    uniqueVideoIds (runRequests
      [(testWorld, "v=aaaaaaaaaaa".data), (testWorld, "v=aaaaaaaaaaa".data)] []) :=
  summarize_sequence_preserves_uniqueVideoIds
    [(testWorld, "v=aaaaaaaaaaa".data), (testWorld, "v=aaaaaaaaaaa".data)] []
    (by simp [uniqueVideoIds])

/-! ## C1: a fully cached record is returned as-is, marked cached -/

/-- C1: when the lookup by the extracted video id finds a document holding
both a transcript and a summary, the operation returns exactly the stored
transcript, summary, video id and URL with `is_cached = true`; and the whole
operation (response and new store) is independent of the transcript API and
of the LLM — no transcript is fetched and no summary is generated. -/
theorem summarize_cached_hit (w : World) (store : Store) (url vid : Str)
    (e : StoredTranscript) (t s : Str)
    (hvid : extract_video_id url = some vid)
    (hfind : find_one (fun r => r.video_id == vid) store = some e)
    (ht : e.transcript = some t) (hs : e.summary = some s) :
    (∃ resp, (summarize_youtube_video w store url).1 = .ok resp ∧
      resp.transcript = t ∧ resp.summary = s ∧ resp.video_id = e.video_id ∧
      resp.url = e.url ∧ resp.is_cached = true) ∧
    (∀ tapi' llm',
      summarize_youtube_video { w with tapi := tapi', llm := llm' } store url =
        summarize_youtube_video w store url) := by
  constructor
  · simp only [summarize_youtube_video, hvid, hfind, ht, hs, Option.isSome_some,
               and_self, if_true]
    split
    · rcases hm : get_video_metadata w.meta vid with ⟨a, b, c⟩
      simp only [hm]
      exact ⟨_, rfl, by simp, by simp, rfl, rfl, rfl⟩
    · exact ⟨_, rfl, by simp, by simp, rfl, rfl, rfl⟩
  · intro tapi' llm'
    simp only [summarize_youtube_video, hvid, hfind, ht, hs, Option.isSome_some,
               and_self, if_true]

/-- Witness for C1 at a concrete store and request. -/
theorem summarize_cached_hit_witness :
    ∃ resp, (summarize_youtube_video testWorld [testRecord] "v=aaaaaaaaaaa".data).1
        = .ok resp ∧
      resp.transcript = "old transcript".data ∧ resp.summary = "old summary".data ∧
      resp.video_id = testRecord.video_id ∧ resp.url = testRecord.url ∧
      resp.is_cached = true :=
  (summarize_cached_hit testWorld [testRecord] ("v=aaaaaaaaaaa".data)
    ("aaaaaaaaaaa".data) testRecord ("old transcript".data) ("old summary".data)
    (by decide) (by decide) rfl rfl).1

/-! ## C10: every successful channel-videos response has exactly 6 videos -/

theorem padWithSamples_snd_len (a b c : Option Str) (v : List Video) :
    6 ≤ (padWithSamples a b c v).2.length := by
  have hsl : sample_videos.length = 6 := rfl
  unfold padWithSamples
  split
  · rename_i hcond
    have hlt : v.length < 6 := by
      rcases (by simpa using hcond : v.isEmpty = true ∨ v.length < 6) with h1 | h1
      · rw [List.isEmpty_iff] at h1
        simp [h1]
      · exact h1
    simp only [List.length_append, List.length_take]
    omega
  · rename_i hcond
    simp only [Bool.or_eq_true, not_or, decide_eq_true_eq] at hcond
    show 6 ≤ v.length
    omega

/-- Helper: a successful response carries exactly six videos. -/
theorem get_channel_videos_ok_length (w : ChanWorld) (cu : Option Str)
    (n : Option Str) (vs : List Video)
    (h : get_channel_videos w cu = .ok (n, vs)) : vs.length = 6 := by
  unfold get_channel_videos at h
  split at h
  · exact absurd h (by simp)
  · simp only [Except.ok.injEq, Prod.mk.injEq] at h
    obtain ⟨-, hvs⟩ := h
    rw [← hvs, List.length_take]
    exact Nat.min_eq_left (padWithSamples_snd_len _ _ _ _)

/-- C10: every successful response of the channel-listing endpoint contains
exactly six videos (scraping collects at most six, shortfalls are padded from
the six static samples, and the final list is truncated to six). -/
theorem get_channel_videos_returns_six (w : ChanWorld) (cu : Option Str) :
    match get_channel_videos w cu with
    | .ok p => p.2.length = 6
    | .error _ => True := by
  rcases hr : get_channel_videos w cu with e | ⟨n, vs⟩
  · simp [hr]
  · simp only [hr]
    exact get_channel_videos_ok_length w cu n vs hr

/-! ## C6: static sample fallback when scraping yields nothing -/

theorem padWithSamples_nil (ch cid nm : Option Str) :
    ∃ name : Str, padWithSamples ch cid nm [] = (some name, sample_videos) ∧ name ≠ [] := by
  unfold padWithSamples
  simp only [List.isEmpty_nil, Bool.true_or, if_true, List.nil_append, List.length_nil,
             Nat.sub_zero]
  split
  · split
    · refine ⟨_, rfl, by simp⟩
    · split
      · refine ⟨_, rfl, by simp⟩
      · refine ⟨_, rfl, by simp⟩
  · rename_i hnm
    rcases nm with _ | s
    · simp [pyTruthyOpt] at hnm
    · refine ⟨s, rfl, ?_⟩
      simp only [pyTruthyOpt, not_not] at hnm
      simpa using hnm

theorem pad_nil_ok (a b c : Option Str) :
    ∃ name : Str, (Except.ok ((padWithSamples a b c []).1, (padWithSamples a b c []).2.take 6)
        : Except (Nat × Str) (Option Str × List Video)) = .ok (some name, sample_videos) ∧
      name ≠ [] := by
  obtain ⟨nm, hpad, hne⟩ := padWithSamples_nil a b c
  refine ⟨nm, ?_, hne⟩
  rw [hpad]
  rfl

/-- C6: when the scraper returns an empty video list for every URL (so every
format the endpoint tries fails), the channel-listing endpoint still succeeds,
returns exactly the six hard-coded sample videos, and returns a non-empty
channel name. -/
theorem get_channel_videos_scrape_empty (w : ChanWorld) (curl : Str)
    (hcurl : curl ≠ [])
    (hscrape : ∀ u, (scrape_youtube_channel_videos w u).2 = []) :
    ∃ name : Str, get_channel_videos w (some curl) = .ok (some name, sample_videos) ∧
      name ≠ [] := by
  have htruthy : pyTruthyOpt (some curl) = true := by
    simp [pyTruthyOpt, hcurl]
  unfold get_channel_videos
  rw [if_neg (by simp [htruthy])]
  cases hch : pyTruthyOpt (parseChannelUrl w ((some curl).getD [])).2 <;>
    cases hcid : pyTruthyOpt (parseChannelUrl w ((some curl).getD [])).1 <;>
      simp only [hch, hcid, hscrape, List.isEmpty_nil, Bool.false_eq_true, if_false,
                 eq_self_iff_true, if_true, and_true, true_and, and_false, false_and,
                 and_self] <;>
        exact pad_nil_ok _ _ _

/-- Witness for C6: a world in which every HTTP request raises. -/
theorem get_channel_videos_scrape_empty_witness :
    ∃ name : Str, get_channel_videos { httpText := fun _ => none, httpJson := fun _ => none }
        (some "x".data) = .ok (some name, sample_videos) ∧ name ≠ [] :=
  get_channel_videos_scrape_empty
    { httpText := fun _ => none, httpJson := fun _ => none }
    ("x".data) (by decide) (fun _ => rfl)

end PodSummary
